import Mathlib

/-!
Verification development for the bulk route processor of
`routes/bulkRouteProcessor.js` (route analysis backend).

The JavaScript source is shallowly embedded: every definition below mirrors a
concrete function or code block of `routes/bulkRouteProcessor.js` (line numbers
given per definition).  Asynchronous constructs are embedded by their settled
outcomes: a `Promise.allSettled` over a batch becomes a list of settled
results, the `Promise.race` of a task set against a timer becomes a comparison
of the tasks' durations with the timer duration, and the sequential `for`
loop over batches becomes structural recursion over the chunked list.
External collaborators (Mongo queries for non-Route collections, the
visibility service, haversine trigonometry) are parameters of the model,
never stubs of logic that lives in this file's source.
-/

/-! ## JavaScript string primitives

`String.trim` of JS, modelled on the character list (Lean's own
`String.trim` is byte-index based and does not reduce in the kernel). -/

def jsTrim (s : String) : String :=
  String.mk (((s.data.dropWhile Char.isWhitespace).reverse.dropWhile Char.isWhitespace).reverse)

/-- Truthiness test used by `!data.fromcode` style checks in the row handler:
a missing (undefined) field and the empty string are both falsy. -/
def jsFalsyStr : Option String → Bool
  | none => true
  | some s => s == ""

/-! ## Manifest rows (`parseBulkRoutesCSV`, lines 1651-1699)

`csv-parser` is configured with fixed headers `[fromcode, fromname, tocode,
toname]`; a short data row leaves trailing fields `undefined`, hence
`Option String` per field. -/

structure CsvRow where
  fromcode : Option String
  fromname : Option String
  tocode : Option String
  toname : Option String
deriving DecidableEq, Repr

/-- One manifest row accepted by the parser (the WorkItem of the spec). -/
structure RouteEntry where
  fromcode : String
  fromname : String
  tocode : String
  toname : String
deriving DecidableEq, Repr

/-- The `.on('data', ...)` handler of `parseBulkRoutesCSV` (lines 1662-1686):
`none` means the row was pushed onto the internal `errors` array and skipped,
`some route` means it was pushed onto `routes`.  Note the source checks the
four fields for falsiness BEFORE trimming, and after trimming re-checks only
`fromcode`/`tocode`. -/
def processBulkRow (data : CsvRow) : Option RouteEntry :=
  if jsFalsyStr data.fromcode || jsFalsyStr data.fromname ||
     jsFalsyStr data.tocode || jsFalsyStr data.toname then
    none
  else
    let route : RouteEntry :=
      { fromcode := jsTrim (data.fromcode.getD "")
        fromname := jsTrim (data.fromname.getD "")
        tocode := jsTrim (data.tocode.getD "")
        toname := jsTrim (data.toname.getD "") }
    if route.fromcode == "" || route.tocode == "" then none else some route

/-- `parseBulkRoutesCSV` (lines 1651-1699): the promise resolves with the
`routes` array only; the `errors` array is console-logged and dropped. -/
def parseBulkRoutesCSV (rows : List CsvRow) : List RouteEntry :=
  rows.filterMap processBulkRow

/-- Size of the internal `errors` array built by the row handler. -/
def bulkRowErrorCount (rows : List CsvRow) : Nat :=
  (rows.filter (fun r => (processBulkRow r).isNone)).length

/-! ## GPS points and `calculateRouteDetailsOptimized` (lines 1597-1648)

Coordinates are JS floats; the claims about this function concern the
decimation structure, not the trigonometry, so coordinates are embedded as
rationals and the haversine `calculateDistance` (lines 1598-1608, a fixed
closed-form in `sin`/`cos`/`atan2`) is a parameter `dist` of the model. -/

structure GPSPoint where
  latitude : ℚ
  longitude : ℚ
deriving DecidableEq, Repr

def gpsDefault : GPSPoint := { latitude := 0, longitude := 0 }

/-- `Math.round` on a rational. -/
def jsMathRound (q : ℚ) : ℤ :=
  ⌊q + 1 / 2⌋

/-- `Math.round(x * 100) / 100` — rounding to two decimals. -/
def roundTo2 (q : ℚ) : ℚ :=
  (jsMathRound (q * 100) : ℚ) / 100

/-- The body of the `for (let i = 0; i < n; i += step)` loop of
`calculateRouteDetailsOptimized` (lines 1615-1627): visits `i = 0, step,
2*step, ...` below `n`, accumulating the distance from the previous visited
index (`gpsPoints[i-step]`, which is always defined since `i` is a positive
multiple of `step`) and pushing the decimated point.  The loop performs at
most `n` iterations when `step ≥ 1`, so `fuel = n` makes it structural. -/
def routeDetailsLoop (dist : GPSPoint → GPSPoint → ℚ) (pts : List GPSPoint)
    (s n : Nat) : Nat → Nat → ℚ → List GPSPoint × ℚ
  | 0, _, acc => ([], acc)
  | fuel + 1, i, acc =>
    if i < n then
      let acc2 := if 0 < i then acc + dist (pts.getD (i - s) gpsDefault) (pts.getD i gpsDefault) else acc
      let rest := routeDetailsLoop dist pts s n fuel (i + s) acc2
      (pts.getD i gpsDefault :: rest.1, rest.2)
    else ([], acc)

/-- Spec-side description of the accumulated distance: the sum of `dist` over
adjacent pairs of a point list ("cumulative distance over the decimated
subsequence"). -/
def sumAdjacentDist (dist : GPSPoint → GPSPoint → ℚ) : List GPSPoint → ℚ
  | [] => 0
  | [_] => 0
  | x :: y :: rest => dist x y + sumAdjacentDist dist (y :: rest)

structure RouteDetails where
  fromCoordinates : GPSPoint
  toCoordinates : GPSPoint
  totalDistance : ℚ
  estimatedDuration : ℤ
  routePoints : List GPSPoint
deriving DecidableEq, Repr

/-- `maxRoutePoints` (line 1612). -/
def maxRoutePoints : Nat := 1000

/-- `calculateRouteDetailsOptimized` (lines 1597-1648).  `step = Math.max(1,
Math.floor(n / 1000))`; `totalDistance` is the raw loop accumulator,
`estimatedDuration = Math.round(totalDistance * 1.5)` (the stored
`totalDistance` field is the 2-decimal rounding of the raw value).  The
per-point `pointOrder`/`distanceFromStart` bookkeeping (lines 1620-1633) is
not carried: no claim mentions it. -/
def calculateRouteDetailsOptimized (dist : GPSPoint → GPSPoint → ℚ)
    (gpsPoints : List GPSPoint) : RouteDetails :=
  let n := gpsPoints.length
  let step := max 1 (n / maxRoutePoints)
  let loopOut := routeDetailsLoop dist gpsPoints step n n 0 0
  { fromCoordinates := gpsPoints.getD 0 gpsDefault
    toCoordinates := gpsPoints.getD (n - 1) gpsDefault
    totalDistance := roundTo2 loopOut.2
    estimatedDuration := jsMathRound (loopOut.2 * (3 / 2))
    routePoints := loopOut.1 }

/-! ## The Route collection (`Route` model usage in this file)

Only the fields this file reads or writes are carried.  `status: { $ne:
'deleted' }` is the idempotency filter of lines 1014-1019; a freshly saved
route has the schema default status (not `'deleted'`), written `"active"`
here. -/

structure StoredRoute where
  id : Nat
  userId : Nat
  fromCode : String
  toCode : String
  fromName : String
  toName : String
  status : String
  totalDistance : ℚ
  estimatedDuration : ℤ
  routePoints : List GPSPoint
  terrain : String
deriving DecidableEq, Repr

structure RouteDB where
  routes : List StoredRoute
  nextId : Nat
deriving DecidableEq, Repr

/-- The filter of `Route.findOne({ userId, fromCode, toCode, status: { $ne:
'deleted' } })` (lines 1014-1019). -/
def matchesRouteKey (uid : Nat) (fc tc : String) (r : StoredRoute) : Bool :=
  r.userId == uid && r.fromCode == fc && r.toCode == tc && !(r.status == "deleted")

/-- `Route.findOne` for the idempotency check. -/
def findExistingRoute (db : RouteDB) (uid : Nat) (fc tc : String) : Option StoredRoute :=
  db.routes.find? (matchesRouteKey uid fc tc)

/-- `createRouteOptimized` (lines 1563-1595): computes the route details and
saves a new `Route` document. -/
def createRouteOptimized (dist : GPSPoint → GPSPoint → ℚ) (gpsPoints : List GPSPoint)
    (routeEntry : RouteEntry) (userId : Nat) (terrainType : String)
    (db : RouteDB) : StoredRoute × RouteDB :=
  let details := calculateRouteDetailsOptimized dist gpsPoints
  let route : StoredRoute :=
    { id := db.nextId
      userId := userId
      fromCode := routeEntry.fromcode
      toCode := routeEntry.tocode
      fromName := routeEntry.fromname
      toName := routeEntry.toname
      status := "active"
      totalDistance := details.totalDistance
      estimatedDuration := details.estimatedDuration
      routePoints := details.routePoints
      terrain := terrainType }
  (route, { routes := db.routes ++ [route], nextId := db.nextId + 1 })

/-! ## Enrichment tasks (`collectEnhancedDataForRoute`, lines 1237-1329)

Each task promise is wrapped in its own `.catch(error => ({error}))`
(lines 1256-1310), so `Promise.all(collectionPromises)` never rejects and
settles when the slowest task settles.  That aggregate is raced against one
shared `setTimeout` of 180000 ms (lines 1314-1318); if the timer wins the
`catch` of line 1325 returns the all-zero `collectionCounts`, otherwise the
authoritative per-collection counts are re-read from the database
(`countRecordsCreated`, a parameter here).  Task durations are the
parameters of the race. -/

structure CollectionCounts where
  emergencyServices : Nat
  weatherConditions : Nat
  trafficData : Nat
  accidentProneAreas : Nat
  roadConditions : Nat
  sharpTurns : Nat
  blindSpots : Nat
  networkCoverage : Nat
  seasonalWeatherData : Nat
deriving DecidableEq, Repr

/-- The zero-initialised `collectionCounts` object (lines 1238-1248). -/
def zeroCounts : CollectionCounts :=
  { emergencyServices := 0, weatherConditions := 0, trafficData := 0
    accidentProneAreas := 0, roadConditions := 0, sharpTurns := 0
    blindSpots := 0, networkCoverage := 0, seasonalWeatherData := 0 }

def countsTotal (c : CollectionCounts) : Nat :=
  c.emergencyServices + c.weatherConditions + c.trafficData +
    c.accidentProneAreas + c.roadConditions + c.sharpTurns +
    c.blindSpots + c.networkCoverage + c.seasonalWeatherData

inductive EnrichTask where
  | basicData
  | sharpTurns
  | networkCoverage
  | roadConditions
  | accidentData
  | seasonalWeather
deriving DecidableEq, Repr

structure EnhOptions where
  includeSharpTurns : Bool
  includeBlindSpots : Bool
  includeNetworkCoverage : Bool
  includeEnhancedRoadConditions : Bool
  includeAccidentData : Bool
  includeSeasonalWeather : Bool
deriving DecidableEq, Repr

/-- Which promises are pushed onto `collectionPromises` (lines 1254-1311),
in source order. -/
def enabledEnrichTasks (mode : String) (o : EnhOptions) : List EnrichTask :=
  (if mode == "basic" || mode == "comprehensive" || mode == "complete" then
    [EnrichTask.basicData] else []) ++
  (if o.includeSharpTurns && (mode == "comprehensive" || mode == "complete") then
    [EnrichTask.sharpTurns] else []) ++
  (if o.includeNetworkCoverage && (mode == "comprehensive" || mode == "complete") then
    [EnrichTask.networkCoverage] else []) ++
  (if o.includeEnhancedRoadConditions && (mode == "comprehensive" || mode == "complete") then
    [EnrichTask.roadConditions] else []) ++
  (if o.includeAccidentData && (mode == "comprehensive" || mode == "complete") then
    [EnrichTask.accidentData] else []) ++
  (if o.includeSeasonalWeather && mode == "complete" then
    [EnrichTask.seasonalWeather] else [])

/-- The single shared timeout of line 1315. -/
def enhancedCollectionTimeoutMs : Nat := 180000

/-- `collectEnhancedDataForRoute` (lines 1237-1329).  `durations t` is how
long task `t` runs before settling (fulfilled or caught); `dbCounts` is what
`countRecordsCreated(routeId)` reads back. -/
def collectEnhancedDataForRoute (mode : String) (o : EnhOptions)
    (durations : EnrichTask → Nat) (dbCounts : CollectionCounts) : CollectionCounts :=
  if (enabledEnrichTasks mode o).all (fun t => durations t < enhancedCollectionTimeoutMs) then
    dbCounts
  else
    zeroCounts

/-! ## Automatic visibility analysis (`performAutomaticVisibilityAnalysis`,
lines 1159-1228)

The function wraps its whole body, including the `Promise.race` with the
per-route timer, in `try/catch` and always returns a result object — it never
throws, so the `catch (visError)` branches of its callers (lines 1043-1049 and
1133-1142) are unreachable.  Its outcome is a parameter of the pipeline. -/

structure VisData where
  sharpTurns : Nat
  blindSpots : Nat
  criticalTurns : Nat
  criticalBlindSpots : Nat
  sharpTurnsAnalyzed : Bool
  blindSpotsAnalyzed : Bool
deriving DecidableEq, Repr

def visDataNone : VisData :=
  { sharpTurns := 0, blindSpots := 0, criticalTurns := 0, criticalBlindSpots := 0
    sharpTurnsAnalyzed := false, blindSpotsAnalyzed := false }

structure VisOutcome where
  success : Bool
  data : VisData
  error : Option String
deriving DecidableEq, Repr

/-! ## One work item (`processSingleRouteEnhancedWithVisibility`,
lines 977-1154) -/

/-- The per-route result object (lines 979-1007 plus the fields set along the
way).  `enhancedCollectionCounts` is `some _` whenever the result object was
built by `processSingleRouteEnhancedWithVisibility` (its initial value is the
truthy `{}`, modelled `some zeroCounts`); the synthetic results built in the
batch loop's catch paths (lines 637-646 and 670-679) omit the field, hence
`none`. -/
structure RouteResult where
  routeNumber : Nat
  fromCode : String
  toCode : String
  status : String
  routeId : Option Nat
  gpsPoints : Nat
  error : Option String
  enhancedDataCollectionAttempted : Bool
  enhancedDataCollectionSuccessful : Bool
  enhancedCollectionCounts : Option CollectionCounts
  visibilityAnalysisAttempted : Bool
  visibilityAnalysisSuccessful : Bool
  visibilityAnalysisError : Option String
  visibilityData : VisData
deriving DecidableEq, Repr

/-- The initial `result` object (lines 979-1007). -/
def initialRouteResult (routeEntry : RouteEntry) (routeNumber : Nat) : RouteResult :=
  { routeNumber := routeNumber
    fromCode := routeEntry.fromcode
    toCode := routeEntry.tocode
    status := "failed"
    routeId := none
    gpsPoints := 0
    error := none
    enhancedDataCollectionAttempted := false
    enhancedDataCollectionSuccessful := false
    enhancedCollectionCounts := some zeroCounts
    visibilityAnalysisAttempted := false
    visibilityAnalysisSuccessful := false
    visibilityAnalysisError := none
    visibilityData := visDataNone }

/-- The request options and external collaborators of one bulk run:
`gps e` is `loadGPSDataOptimized` (lines 1469-1491) — `none` models the
"GPS file not found" throw, `some pts` the parsed point list;
`dist` abstracts the haversine; `taskDurations`/`dbCounts` feed
`collectEnhancedDataForRoute`; `visOutcome id` is
`performAutomaticVisibilityAnalysis(id, ...)`. -/
structure BulkCfg where
  userId : Nat
  skipExistingRoutes : Bool
  dataCollectionMode : String
  terrainType : String
  enhOptions : EnhOptions
  enableAutomaticVisibilityAnalysis : Bool
  continueOnVisibilityFailure : Bool
  dist : GPSPoint → GPSPoint → ℚ
  gps : RouteEntry → Option (List GPSPoint)
  taskDurations : EnrichTask → Nat
  dbCounts : Nat → CollectionCounts
  visOutcome : Nat → VisOutcome

/-- Visibility-analysis step on a created route (lines 1100-1145): sets the
tracking fields and, when the analysis fails and
`continueOnVisibilityFailure` is false, downgrades the route status. -/
def applyVisibilityOnCreated (cfg : BulkCfg) (routeId : Nat) (r : RouteResult) : RouteResult :=
  if cfg.enableAutomaticVisibilityAnalysis then
    let v := cfg.visOutcome routeId
    { r with
      visibilityAnalysisAttempted := true
      visibilityAnalysisSuccessful := v.success
      visibilityData := v.data
      visibilityAnalysisError := if v.success then r.visibilityAnalysisError else v.error
      status := if !v.success && !cfg.continueOnVisibilityFailure then "failed" else r.status
      error := if !v.success && !cfg.continueOnVisibilityFailure then
          some ("Visibility analysis failed: " ++ (v.error.getD "")) else r.error }
  else r

/-- `processSingleRouteEnhancedWithVisibility` (lines 977-1154), returning the
settled result together with the Route collection state.  The skip branch
(lines 1013-1054) returns before any creation; the `gpsPoints.length < 2`
throw of line 1060 and the file-not-found throw of line 1487 both land in the
outer catch (lines 1147-1150), which only records the message on the
still-`failed` result. -/
def processSingleRouteEnhancedWithVisibility (cfg : BulkCfg) (routeEntry : RouteEntry)
    (routeNumber : Nat) (db : RouteDB) : RouteResult × RouteDB :=
  let result0 := initialRouteResult routeEntry routeNumber
  match cfg.skipExistingRoutes, findExistingRoute db cfg.userId routeEntry.fromcode routeEntry.tocode with
  | true, some existingRoute =>
    let skipped := { result0 with
      status := "skipped"
      routeId := some existingRoute.id
      error := some "Route already exists" }
    let withVis :=
      if cfg.enableAutomaticVisibilityAnalysis then
        let v := cfg.visOutcome existingRoute.id
        { skipped with
          visibilityAnalysisAttempted := true
          visibilityAnalysisSuccessful := v.success
          visibilityData := v.data
          visibilityAnalysisError := if v.success then none else v.error }
      else skipped
    (withVis, db)
  | _, _ =>
    match cfg.gps routeEntry with
    | none =>
      ({ result0 with error := some ("GPS file not found: " ++ routeEntry.fromcode ++
          "_" ++ routeEntry.tocode ++ ".xlsx or .xls") }, db)
    | some gpsPoints =>
      if gpsPoints.length < 2 then
        ({ result0 with error := some ("Insufficient GPS points: " ++
            toString gpsPoints.length ++ " (minimum 2 required)") }, db)
      else
        let created := createRouteOptimized cfg.dist gpsPoints routeEntry cfg.userId cfg.terrainType db
        let r1 := { result0 with
          status := "successful"
          routeId := some created.1.id
          gpsPoints := gpsPoints.length }
        let r2 :=
          if !(cfg.dataCollectionMode == "none") then
            let counts := collectEnhancedDataForRoute cfg.dataCollectionMode cfg.enhOptions
              cfg.taskDurations (cfg.dbCounts created.1.id)
            { r1 with
              enhancedDataCollectionAttempted := true
              enhancedDataCollectionSuccessful := 0 < countsTotal counts
              enhancedCollectionCounts := some counts }
          else r1
        (applyVisibilityOnCreated cfg created.1.id r2, created.2)

/-- Serialized composition of work items against the Route collection: each
item's database effects are visible to the later ones.  This is the faithful
model only when item pipelines do not overlap — batch size 1
(`maxConcurrentRoutes = 1`), or items whose interleaved steps commute (e.g.
items that perform no Route write).  Within a batch of size 2 the source
overlaps the two pipelines; `processPairChecksBeforeSaves` below models that
case. -/
def runItemsSeq (cfg : BulkCfg) : List RouteEntry → RouteDB → List RouteResult × RouteDB
  | [], db => ([], db)
  | e :: rest, db =>
    let pr := processSingleRouteEnhancedWithVisibility cfg e 0 db
    let tail := runItemsSeq cfg rest pr.2
    (pr.1 :: tail.1, tail.2)

/-! ## The concurrent batch pair

Within one batch, `batch.map(async ...)` (lines 596-648) starts up to two
item pipelines that run interleaved on the event loop.  Each pipeline's
`Route.findOne` existence check (lines 1014-1019) and its `route.save()`
(line 1593) are separated by further awaits (`loadGPSDataOptimized`'s file
access and parse, lines 1057, 1476-1490), so the schedule in which BOTH
items' checks resolve before EITHER save commits is reachable.  The split
below cuts `processSingleRouteEnhancedWithVisibility` exactly at that await
boundary; `processSingle_eq_fromCheck` proves the cut is a refactoring of
the one-item pipeline, not a new program. -/

/-- The awaited `Route.findOne` of the idempotency check (lines 1013-1019):
`none` when `skipExistingRoutes` is off (no check is issued) or no
non-deleted route matches. -/
def routeExistenceCheck (cfg : BulkCfg) (routeEntry : RouteEntry) (db : RouteDB) :
    Option StoredRoute :=
  if cfg.skipExistingRoutes then
    findExistingRoute db cfg.userId routeEntry.fromcode routeEntry.tocode
  else none

/-- The rest of `processSingleRouteEnhancedWithVisibility` after the
existence check has resolved to `checkResult`: the skip branch
(lines 1021-1053) for `some`, the load/create/enrich path for `none` —
textually the same branches as in the unsplit definition. -/
def processSingleRouteFromCheck (cfg : BulkCfg) (routeEntry : RouteEntry)
    (routeNumber : Nat) (checkResult : Option StoredRoute) (db : RouteDB) :
    RouteResult × RouteDB :=
  let result0 := initialRouteResult routeEntry routeNumber
  match checkResult with
  | some existingRoute =>
    let skipped := { result0 with
      status := "skipped"
      routeId := some existingRoute.id
      error := some "Route already exists" }
    let withVis :=
      if cfg.enableAutomaticVisibilityAnalysis then
        let v := cfg.visOutcome existingRoute.id
        { skipped with
          visibilityAnalysisAttempted := true
          visibilityAnalysisSuccessful := v.success
          visibilityData := v.data
          visibilityAnalysisError := if v.success then none else v.error }
      else skipped
    (withVis, db)
  | none =>
    match cfg.gps routeEntry with
    | none =>
      ({ result0 with error := some ("GPS file not found: " ++ routeEntry.fromcode ++
          "_" ++ routeEntry.tocode ++ ".xlsx or .xls") }, db)
    | some gpsPoints =>
      if gpsPoints.length < 2 then
        ({ result0 with error := some ("Insufficient GPS points: " ++
            toString gpsPoints.length ++ " (minimum 2 required)") }, db)
      else
        let created := createRouteOptimized cfg.dist gpsPoints routeEntry cfg.userId cfg.terrainType db
        let r1 := { result0 with
          status := "successful"
          routeId := some created.1.id
          gpsPoints := gpsPoints.length }
        let r2 :=
          if !(cfg.dataCollectionMode == "none") then
            let counts := collectEnhancedDataForRoute cfg.dataCollectionMode cfg.enhOptions
              cfg.taskDurations (cfg.dbCounts created.1.id)
            { r1 with
              enhancedDataCollectionAttempted := true
              enhancedDataCollectionSuccessful := 0 < countsTotal counts
              enhancedCollectionCounts := some counts }
          else r1
        (applyVisibilityOnCreated cfg created.1.id r2, created.2)

/-- Two items of one batch under the reachable event-loop schedule where
both existence checks read the Route collection before either item's save
commits: both checks run against the incoming `db`, then the two
continuations commit in order. -/
def processPairChecksBeforeSaves (cfg : BulkCfg) (e1 e2 : RouteEntry)
    (rn1 rn2 : Nat) (db : RouteDB) : (RouteResult × RouteResult) × RouteDB :=
  let c1 := routeExistenceCheck cfg e1 db
  let c2 := routeExistenceCheck cfg e2 db
  let p1 := processSingleRouteFromCheck cfg e1 rn1 c1 db
  let p2 := processSingleRouteFromCheck cfg e2 rn2 c2 p1.2
  ((p1.1, p2.1), p2.2)

/-! ## Processing state (`processingStates` map, lines 20-50)

Only the fields the claims touch are carried: `status`, the three counters
of the status payload, and `lastUpdate` (stamped by `updateProcessingState`;
the batch-loop theorems do not model wall-clock time and leave it fixed).
Text-only fields (`currentRoute`, `estimatedTimeRemaining`) and the nested
per-collection tallies carry no claim and are omitted. -/

structure ProcState where
  status : String
  totalRoutes : Nat
  completedRoutes : Nat
  failedRoutes : Nat
  lastUpdate : Nat
deriving DecidableEq, Repr

def procStateDefault : ProcState :=
  { status := "", totalRoutes := 0, completedRoutes := 0, failedRoutes := 0, lastUpdate := 0 }

/-- The merge performed by the `/cancel` handler (lines 196-227): it spreads
`{ status: 'cancelled', ... }` over the current state, leaving counters
untouched. -/
def cancelUpdate (st : ProcState) : ProcState :=
  { st with status := "cancelled" }

/-- The per-result state update of the batch collector (lines 759-814).  The
whole read-modify-write, including the `completedRoutes`/`failedRoutes`
increments, sits inside `if (routeResult.enhancedCollectionCounts)`
(line 765): a settled result without that field updates nothing. -/
def perItemUpdate (r : RouteResult) (st : ProcState) : ProcState :=
  match r.enhancedCollectionCounts with
  | none => st
  | some _ =>
    { st with
      completedRoutes := st.completedRoutes + (if r.status == "successful" then 1 else 0)
      failedRoutes := st.failedRoutes + (if r.status == "failed" then 1 else 0) }

/-! ## Batching (lines 574-580) and result collection (lines 663-689) -/

/-- The chunking loop `for (let i = 0; i < n; i += batchSize)
batches.push(routeEntries.slice(i, i + batchSize))`, made structural with
`fuel = xs.length` (one chunk consumes at least one element when `0 < k`;
the JS loop never terminates for `batchSize = 0`, which no caller produces:
`batchSize = Math.min(parseInt(maxConcurrentRoutes), 2)`). -/
def chunkAux (fuel : Nat) (xs : List RouteEntry) (k : Nat) : List (List RouteEntry) :=
  match fuel, xs with
  | 0, _ => []
  | _ + 1, [] => []
  | f + 1, x :: rest => ((x :: rest).take k) :: chunkAux f ((x :: rest).drop k) k

def chunkList (xs : List RouteEntry) (k : Nat) : List (List RouteEntry) :=
  chunkAux xs.length xs k

/-- The three result arrays of `results` (lines 520-522). -/
structure Buckets where
  successful : List RouteResult
  skipped : List RouteResult
  failed : List RouteResult
deriving DecidableEq, Repr

def emptyBuckets : Buckets := { successful := [], skipped := [], failed := [] }

/-- The categorisation of one settled batch result (lines 682-689). -/
def categorize (acc : Buckets) (r : RouteResult) : Buckets :=
  if r.status == "successful" then { acc with successful := acc.successful ++ [r] }
  else if r.status == "skipped" then { acc with skipped := acc.skipped ++ [r] }
  else { acc with failed := acc.failed ++ [r] }

/-- Outcome of one run of the batch loop: the buckets, the processing state
after the final update, how many batches were dispatched, and the state
snapshot visible to the status poller after each batch settled (i.e. before
the next batch is dispatched). -/
structure JobRun where
  buckets : Buckets
  finalState : ProcState
  dispatched : Nat
  snapshots : List ProcState
deriving Repr

/-- The batch loop of `processRoutesEnhancedWithVisibilityAndStatus`
(lines 585-821).  `outcome e` is the settled value of the
`Promise.race`-wrapped item promise for entry `e` (the fulfilled result of
`processSingleRouteEnhancedWithVisibility`, or the synthetic `failed` object
of lines 637-646 / 670-679 for a throw or per-item timeout).  The
`batchResults.forEach` body both categorises each result and runs the gated
state update; the loop body never reads `status`, so a cancellation (modelled
as the `/cancel` merge landing before batch `cancelAt`) is never consulted.
Status-text-only updates (lines 590-593 and 600-609) touch no modelled field
and are elided. -/
def runLoop (outcome : RouteEntry → RouteResult) (cancelAt : Option Nat) :
    List (List RouteEntry) → Nat → Buckets → ProcState → JobRun
  | [], _, bs, st =>
    { buckets := bs, finalState := st, dispatched := 0, snapshots := [] }
  | batch :: rest, idx, bs, st =>
    let st0 := if cancelAt == some idx then cancelUpdate st else st
    let settled := batch.map outcome
    let collected := settled.foldl
      (fun (p : Buckets × ProcState) r => (categorize p.1 r, perItemUpdate r p.2)) (bs, st0)
    let tail := runLoop outcome cancelAt rest (idx + 1) collected.1 collected.2
    { buckets := tail.buckets
      finalState := tail.finalState
      dispatched := tail.dispatched + 1
      snapshots := collected.2 :: tail.snapshots }

/-- `processRoutesEnhancedWithVisibilityAndStatus` (lines 438-940) reduced to
its batch loop and state lifecycle: the initial state (lines 462-516), the
`status: 'processing'` update (lines 569-572), the loop, and the final
update (lines 922-929), which unconditionally writes `status: 'completed'`
and overwrites the counters with the bucket sizes. -/
def runJob (entries : List RouteEntry) (outcome : RouteEntry → RouteResult)
    (batchSize : Nat) (cancelAt : Option Nat) : JobRun :=
  let st0 : ProcState :=
    { status := "starting", totalRoutes := entries.length
      completedRoutes := 0, failedRoutes := 0, lastUpdate := 0 }
  let st1 := { st0 with status := "processing" }
  let looped := runLoop outcome cancelAt (chunkList entries batchSize) 0 emptyBuckets st1
  { looped with
    finalState := { looped.finalState with
      status := "completed"
      completedRoutes := looped.buckets.successful.length
      failedRoutes := looped.buckets.failed.length } }

/-! ## Status endpoint (`GET /status`, lines 93-190) -/

structure StatusResponse where
  httpCode : Nat
  success : Bool
  status : String
deriving DecidableEq, Repr

/-- The 5-minute staleness window (line 114). -/
def staleLimitMs : Nat := 5 * 60 * 1000

/-- `GET /status` for one user: the argument is that user's entry of the
`processingStates` map, the result is the HTTP response together with the
entry after the call (`none` = `clearProcessingState`).  With no state the
endpoint 404s (still reporting `status: 'completed'`, line 106); with a
state older than five minutes it clears the state and reports 200/completed
whatever `state.status` was (lines 110-122); otherwise it echoes the state
(`state.status || 'processing'`, line 134). -/
def statusEndpointHandler (state : Option ProcState) (now : Nat) :
    StatusResponse × Option ProcState :=
  match state with
  | none => ({ httpCode := 404, success := false, status := "completed" }, none)
  | some s =>
    if staleLimitMs < now - s.lastUpdate then
      ({ httpCode := 200, success := true, status := "completed" }, none)
    else
      ({ httpCode := 200, success := true
         status := if s.status == "" then "processing" else s.status }, some s)

/-! ## Scheduler trace (the await structure of lines 585-821)

The temporal claims are about the order of dispatch and settle events.  In
one iteration of the batch loop, `batch.map(...)` starts every item promise
of that batch, and `await Promise.allSettled(...)` suspends the loop until
every one of them has settled (the per-item `Promise.race` with the 400 s
timer settles even for an overrunning item); only then does the next
iteration run.  Within a batch the settle order is arbitrary — it is a
parameter `perm` of the trace. -/

inductive SchedulerEvent where
  | dispatch (batchIdx itemIdx : Nat)
  | settle (batchIdx itemIdx : Nat)
deriving DecidableEq, Repr

def evBatchIdx : SchedulerEvent → Nat
  | .dispatch b _ => b
  | .settle b _ => b

/-- One iteration of the batch loop: all `sz` items of batch `b` are
dispatched, then the iteration blocks until they have settled in some
order `perm`. -/
def batchSegment (b sz : Nat) (perm : List Nat) : List SchedulerEvent :=
  (List.range sz).map (SchedulerEvent.dispatch b) ++ perm.map (SchedulerEvent.settle b)

def scheduleTraceFrom (base : Nat) : List (Nat × List Nat) → List SchedulerEvent
  | [] => []
  | (sz, perm) :: rest => batchSegment base sz perm ++ scheduleTraceFrom (base + 1) rest

def scheduleTrace (sizes : List Nat) (perms : List (List Nat)) : List SchedulerEvent :=
  scheduleTraceFrom 0 (sizes.zip perms)

/-- The batch sizes the chunking loop produces. -/
def batchSizes (entries : List RouteEntry) (k : Nat) : List Nat :=
  (chunkList entries k).map List.length

/-! ## Remaining definitions used by the theorems -/

/-- A settled result whose gated state update (line 765 guard) fires and
counts it as completed: the result carries `enhancedCollectionCounts` and has
status `successful`. -/
def countedSuccessful (r : RouteResult) : Bool :=
  r.enhancedCollectionCounts.isSome && r.status == "successful"

/-- As `countedSuccessful`, for the `failedRoutes` increment. -/
def countedFailed (r : RouteResult) : Bool :=
  r.enhancedCollectionCounts.isSome && r.status == "failed"

/-- Number of non-deleted Route documents for one (owner, fromCode, toCode)
key. -/
def routeKeyCount (db : RouteDB) (uid : Nat) (fc tc : String) : Nat :=
  (db.routes.filter (matchesRouteKey uid fc tc)).length

/-- No owner+fromCode+toCode key has duplicate primary entities. -/
def NoDupRouteKeys (db : RouteDB) : Prop :=
  ∀ uid : Nat, ∀ fc tc : String, routeKeyCount db uid fc tc ≤ 1

/-- The synthetic result object built for a rejected batch promise
(lines 670-679), e.g. an item that hit the 400 s per-item `Promise.race`
timer: note it carries no `enhancedCollectionCounts` field. -/
def timeoutRouteResult (routeEntry : RouteEntry) (routeNumber : Nat) : RouteResult :=
  { routeNumber := routeNumber
    fromCode := routeEntry.fromcode
    toCode := routeEntry.tocode
    status := "failed"
    routeId := none
    gpsPoints := 0
    error := some "Enhanced route processing with visibility timeout"
    enhancedDataCollectionAttempted := false
    enhancedDataCollectionSuccessful := false
    enhancedCollectionCounts := none
    visibilityAnalysisAttempted := false
    visibilityAnalysisSuccessful := false
    visibilityAnalysisError := none
    visibilityData := visDataNone }

/-- Sample manifest row for concrete instantiations. -/
def sampleEntry (fc tc : String) : RouteEntry :=
  { fromcode := fc, fromname := fc ++ " name", tocode := tc, toname := tc ++ " name" }

def allEnhOptions : EnhOptions :=
  { includeSharpTurns := true, includeBlindSpots := true, includeNetworkCoverage := true
    includeEnhancedRoadConditions := true, includeAccidentData := true
    includeSeasonalWeather := true }

def sampleVisOutcome : VisOutcome :=
  { success := true, data := visDataNone, error := none }

/-- A concrete run configuration for the closed instantiations. -/
def sampleCfg : BulkCfg :=
  { userId := 7
    skipExistingRoutes := true
    dataCollectionMode := "comprehensive"
    terrainType := "mixed"
    enhOptions := allEnhOptions
    enableAutomaticVisibilityAnalysis := true
    continueOnVisibilityFailure := true
    dist := fun _ _ => 0
    gps := fun _ => some []
    taskDurations := fun _ => 0
    dbCounts := fun _ => zeroCounts
    visOutcome := fun _ => sampleVisOutcome }

/-- A concrete stored route for the closed instantiations. -/
def sampleStoredRoute : StoredRoute :=
  { id := 3, userId := 7, fromCode := "HPA", toCode := "HPB"
    fromName := "A name", toName := "B name", status := "active"
    totalDistance := 0, estimatedDuration := 0, routePoints := [], terrain := "mixed" }

/-- `sampleCfg` with an input file resolving to two valid points (the
minimum accepted by the pipeline), so that an unskipped item creates a
route. -/
def sampleCfgTwoPoints : BulkCfg :=
  { sampleCfg with
    gps := fun _ => some [gpsDefault, { latitude := 1, longitude := 1 }] }

/-! ## Helper lemmas: chunking -/

theorem chunkAux_flatten (k : Nat) (hk : 0 < k) :
    ∀ (fuel : Nat) (xs : List RouteEntry), xs.length ≤ fuel →
      (chunkAux fuel xs k).flatten = xs := by
  intro fuel
  induction fuel with
  | zero =>
    intro xs hxs
    cases xs with
    | nil => rfl
    | cons x rest => simp at hxs
  | succ f ih =>
    intro xs hxs
    cases xs with
    | nil => rfl
    | cons x rest =>
      have hdrop : ((x :: rest).drop k).length ≤ f := by
        simp only [List.length_drop, List.length_cons] at *
        omega
      simp only [chunkAux, List.flatten_cons, ih _ hdrop, List.take_append_drop]

theorem chunkList_flatten (xs : List RouteEntry) (k : Nat) (hk : 0 < k) :
    (chunkList xs k).flatten = xs :=
  chunkAux_flatten k hk xs.length xs (Nat.le_refl _)

/-! ## Helper lemmas: the collector fold -/

theorem foldl_collect_split (rs : List RouteResult) (bs : Buckets) (st : ProcState) :
    rs.foldl (fun (p : Buckets × ProcState) r => (categorize p.1 r, perItemUpdate r p.2)) (bs, st) =
      (rs.foldl categorize bs, rs.foldl (fun s r => perItemUpdate r s) st) := by
  induction rs generalizing bs st with
  | nil => rfl
  | cons r rest ih => simp only [List.foldl_cons, ih]

theorem foldl_categorize_successful (rs : List RouteResult) (bs : Buckets) :
    (rs.foldl categorize bs).successful =
      bs.successful ++ rs.filter (fun r => r.status == "successful") := by
  induction rs generalizing bs with
  | nil => simp
  | cons r rest ih =>
    simp only [List.foldl_cons, ih, categorize]
    by_cases h1 : r.status == "successful"
    · simp [h1, List.filter_cons]
    · by_cases h2 : r.status == "skipped" <;> simp [h1, h2, List.filter_cons]

theorem foldl_categorize_skipped (rs : List RouteResult) (bs : Buckets) :
    (rs.foldl categorize bs).skipped =
      bs.skipped ++ rs.filter (fun r => !(r.status == "successful") && r.status == "skipped") := by
  induction rs generalizing bs with
  | nil => simp
  | cons r rest ih =>
    simp only [List.foldl_cons, ih, categorize]
    by_cases h1 : r.status == "successful"
    · simp [h1, List.filter_cons]
    · by_cases h2 : r.status == "skipped" <;> simp [h1, h2, List.filter_cons]

theorem foldl_categorize_failed (rs : List RouteResult) (bs : Buckets) :
    (rs.foldl categorize bs).failed =
      bs.failed ++ rs.filter (fun r => !(r.status == "successful") && !(r.status == "skipped")) := by
  induction rs generalizing bs with
  | nil => simp
  | cons r rest ih =>
    simp only [List.foldl_cons, ih, categorize]
    by_cases h1 : r.status == "successful"
    · simp [h1, List.filter_cons]
    · by_cases h2 : r.status == "skipped" <;> simp [h1, h2, List.filter_cons]

theorem filter_three_way_length (rs : List RouteResult) :
    (rs.filter (fun r => r.status == "successful")).length +
      (rs.filter (fun r => !(r.status == "successful") && !(r.status == "skipped"))).length +
      (rs.filter (fun r => !(r.status == "successful") && r.status == "skipped")).length =
      rs.length := by
  induction rs with
  | nil => rfl
  | cons r rest ih =>
    by_cases h1 : r.status == "successful"
    · simp [List.filter_cons, h1]; omega
    · by_cases h2 : r.status == "skipped" <;> simp [List.filter_cons, h1, h2] <;> omega

theorem foldl_perItemUpdate_completed (rs : List RouteResult) (st : ProcState) :
    (rs.foldl (fun s r => perItemUpdate r s) st).completedRoutes =
      st.completedRoutes + rs.countP countedSuccessful := by
  induction rs generalizing st with
  | nil => simp
  | cons r rest ih =>
    obtain ⟨rn, fc, tc, stt, rid, gp, er, a1, a2, ecc, v1, v2, v3, v4⟩ := r
    simp only [List.foldl_cons, ih, List.countP_cons, countedSuccessful]
    cases ecc with
    | none => simp [perItemUpdate]
    | some c =>
      by_cases h1 : stt == "successful" <;>
        simp [perItemUpdate, h1] <;> omega

theorem foldl_perItemUpdate_failed (rs : List RouteResult) (st : ProcState) :
    (rs.foldl (fun s r => perItemUpdate r s) st).failedRoutes =
      st.failedRoutes + rs.countP countedFailed := by
  induction rs generalizing st with
  | nil => simp
  | cons r rest ih =>
    obtain ⟨rn, fc, tc, stt, rid, gp, er, a1, a2, ecc, v1, v2, v3, v4⟩ := r
    simp only [List.foldl_cons, ih, List.countP_cons, countedFailed]
    cases ecc with
    | none => simp [perItemUpdate]
    | some c =>
      by_cases h1 : stt == "failed" <;>
        simp [perItemUpdate, h1] <;> omega

/-! ## Helper lemmas: the batch loop -/

theorem cancelUpdate_counts (st : ProcState) :
    (cancelUpdate st).completedRoutes = st.completedRoutes ∧
      (cancelUpdate st).failedRoutes = st.failedRoutes := ⟨rfl, rfl⟩

theorem runLoop_buckets (outcome : RouteEntry → RouteResult) (cancelAt : Option Nat) :
    ∀ (batches : List (List RouteEntry)) (idx : Nat) (bs : Buckets) (st : ProcState),
      (runLoop outcome cancelAt batches idx bs st).buckets =
        (batches.flatten.map outcome).foldl categorize bs := by
  intro batches
  induction batches with
  | nil => intro idx bs st; rfl
  | cons batch rest ih =>
    intro idx bs st
    simp only [runLoop, foldl_collect_split, ih, List.flatten_cons, List.map_append,
      List.foldl_append]

theorem runLoop_dispatched (outcome : RouteEntry → RouteResult) (cancelAt : Option Nat) :
    ∀ (batches : List (List RouteEntry)) (idx : Nat) (bs : Buckets) (st : ProcState),
      (runLoop outcome cancelAt batches idx bs st).dispatched = batches.length := by
  intro batches
  induction batches with
  | nil => intro idx bs st; rfl
  | cons batch rest ih =>
    intro idx bs st
    simp only [runLoop, ih, List.length_cons]

theorem runLoop_snapshot_counts (outcome : RouteEntry → RouteResult) (cancelAt : Option Nat) :
    ∀ (batches : List (List RouteEntry)) (idx : Nat) (bs : Buckets) (st : ProcState) (i : Nat),
      i < batches.length →
      ((runLoop outcome cancelAt batches idx bs st).snapshots.getD i procStateDefault).completedRoutes =
          st.completedRoutes +
            ((batches.take (i + 1)).flatten.map outcome).countP countedSuccessful ∧
        ((runLoop outcome cancelAt batches idx bs st).snapshots.getD i procStateDefault).failedRoutes =
          st.failedRoutes +
            ((batches.take (i + 1)).flatten.map outcome).countP countedFailed := by
  intro batches
  induction batches with
  | nil => intro idx bs st i hi; simp at hi
  | cons batch rest ih =>
    intro idx bs st i hi
    have hst0 : ∀ st' : ProcState,
        ((if cancelAt == some idx then cancelUpdate st' else st').completedRoutes =
            st'.completedRoutes) ∧
          ((if cancelAt == some idx then cancelUpdate st' else st').failedRoutes =
            st'.failedRoutes) := by
      intro st'
      by_cases h : cancelAt == some idx <;> simp [h, cancelUpdate]
    cases i with
    | zero =>
      simp only [runLoop, foldl_collect_split, List.getD_cons_zero, List.take_succ_cons,
        List.take_zero, List.flatten_cons, List.flatten_nil, List.append_nil, List.map_append]
      constructor
      · rw [foldl_perItemUpdate_completed, (hst0 st).1]
      · rw [foldl_perItemUpdate_failed, (hst0 st).2]
    | succ j =>
      have hj : j < rest.length := by simpa using hi
      simp only [runLoop, foldl_collect_split, List.getD_cons_succ]
      have recur := ih (idx + 1) ((batch.map outcome).foldl categorize bs)
        ((batch.map outcome).foldl (fun s r => perItemUpdate r s)
          (if cancelAt == some idx then cancelUpdate st else st)) j hj
      rw [recur.1, recur.2, foldl_perItemUpdate_completed, foldl_perItemUpdate_failed,
        (hst0 st).1, (hst0 st).2]
      simp only [List.take_succ_cons, List.flatten_cons, List.map_append, List.countP_append]
      omega

theorem runLoop_snapshots_length (outcome : RouteEntry → RouteResult) (cancelAt : Option Nat) :
    ∀ (batches : List (List RouteEntry)) (idx : Nat) (bs : Buckets) (st : ProcState),
      (runLoop outcome cancelAt batches idx bs st).snapshots.length = batches.length := by
  intro batches
  induction batches with
  | nil => intro idx bs st; rfl
  | cons batch rest ih =>
    intro idx bs st
    simp only [runLoop, List.length_cons, ih]

/-! ## Helper lemmas: the scheduler trace -/

theorem batchSegment_batchIdx (b sz : Nat) (perm : List Nat) :
    ∀ e ∈ batchSegment b sz perm, evBatchIdx e = b := by
  intro e he
  simp only [batchSegment, List.mem_append, List.mem_map] at he
  rcases he with ⟨i, _, rfl⟩ | ⟨i, _, rfl⟩ <;> rfl

theorem scheduleTraceFrom_batchIdx_le :
    ∀ (l : List (Nat × List Nat)) (base : Nat), ∀ e ∈ scheduleTraceFrom base l,
      base ≤ evBatchIdx e := by
  intro l
  induction l with
  | nil => intro base e he; simp [scheduleTraceFrom] at he
  | cons hd tl ih =>
    intro base e he
    obtain ⟨sz, perm⟩ := hd
    simp only [scheduleTraceFrom, List.mem_append] at he
    rcases he with he | he
    · exact (batchSegment_batchIdx base sz perm e he).ge
    · exact Nat.le_of_succ_le (ih (base + 1) e he)

theorem scheduleTraceFrom_pairwise :
    ∀ (l : List (Nat × List Nat)) (base : Nat),
      (scheduleTraceFrom base l).Pairwise (fun a b => evBatchIdx a ≤ evBatchIdx b) := by
  intro l
  induction l with
  | nil => intro base; simp [scheduleTraceFrom]
  | cons hd tl ih =>
    intro base
    obtain ⟨sz, perm⟩ := hd
    simp only [scheduleTraceFrom]
    rw [List.pairwise_append]
    refine ⟨?_, ih (base + 1), ?_⟩
    · apply List.pairwise_of_forall_mem_list
      intro a ha b hb
      rw [batchSegment_batchIdx base sz perm a ha,
        batchSegment_batchIdx base sz perm b hb]
    · intro a ha b hb
      rw [batchSegment_batchIdx base sz perm a ha]
      exact Nat.le_of_succ_le (scheduleTraceFrom_batchIdx_le tl (base + 1) b hb)

theorem settle_mem_scheduleTraceFrom :
    ∀ (l : List (Nat × List Nat)) (base i sz : Nat) (perm : List Nat) (y : Nat),
      l.get? i = some (sz, perm) → y ∈ perm →
      SchedulerEvent.settle (base + i) y ∈ scheduleTraceFrom base l := by
  intro l
  induction l with
  | nil => intro base i sz perm y hget _; simp at hget
  | cons hd tl ih =>
    intro base i sz perm y hget hy
    cases i with
    | zero =>
      simp only [List.get?_cons_zero, Option.some.injEq] at hget
      subst hget
      simp only [scheduleTraceFrom, List.mem_append, batchSegment, Nat.add_zero]
      exact Or.inl (Or.inr (List.mem_map_of_mem _ hy))
    | succ j =>
      simp only [List.get?_cons_succ] at hget
      obtain ⟨szh, ph⟩ := hd
      have := ih (base + 1) j sz perm y hget hy
      simp only [scheduleTraceFrom, List.mem_append]
      right
      have harith : base + 1 + j = base + (j + 1) := by omega
      rwa [harith] at this

/-! ## Helper lemmas: the decimation loop -/

theorem routeDetailsLoop_dist_from (dist : GPSPoint → GPSPoint → ℚ) (pts : List GPSPoint)
    (s n : Nat) :
    ∀ (fuel i : Nat) (acc : ℚ), 0 < i →
      (routeDetailsLoop dist pts s n fuel i acc).2 =
        acc + sumAdjacentDist dist
          (pts.getD (i - s) gpsDefault :: (routeDetailsLoop dist pts s n fuel i acc).1) := by
  intro fuel
  induction fuel with
  | zero => intro i acc hi; simp [routeDetailsLoop, sumAdjacentDist]
  | succ f ih =>
    intro i acc hi
    by_cases hin : i < n
    · have hpos : (0 < i) = True := by simp [hi]
      simp only [routeDetailsLoop, if_pos hin, hpos, if_true]
      have hnext : 0 < i + s := by omega
      rw [ih (i + s) _ hnext]
      have hdrop : i + s - s = i := by omega
      rw [hdrop, sumAdjacentDist]
      ring
    · simp [routeDetailsLoop, if_neg hin, sumAdjacentDist]

theorem routeDetailsLoop_dist_total (dist : GPSPoint → GPSPoint → ℚ) (pts : List GPSPoint)
    (s : Nat) (hs : 0 < s) (n : Nat) :
    (routeDetailsLoop dist pts s n n 0 0).2 =
      sumAdjacentDist dist (routeDetailsLoop dist pts s n n 0 0).1 := by
  cases n with
  | zero => simp [routeDetailsLoop, sumAdjacentDist]
  | succ m =>
    have h0 : (0 : Nat) < m + 1 := Nat.succ_pos m
    simp only [routeDetailsLoop, if_pos h0, Nat.lt_irrefl, if_false]
    rw [routeDetailsLoop_dist_from dist pts s (m + 1) m (0 + s) 0 (by omega)]
    have hss : 0 + s - s = 0 := by omega
    rw [hss, zero_add]

theorem routeDetailsLoop_length_le (dist : GPSPoint → GPSPoint → ℚ) (pts : List GPSPoint)
    (s n : Nat) (hs : 0 < s) :
    ∀ (fuel i : Nat) (acc : ℚ),
      (routeDetailsLoop dist pts s n fuel i acc).1.length ≤ (n - i + s - 1) / s := by
  intro fuel
  induction fuel with
  | zero => intro i acc; simp [routeDetailsLoop]
  | succ f ih =>
    intro i acc
    by_cases hin : i < n
    · simp only [routeDetailsLoop, if_pos hin, List.length_cons]
      have hrec := ih (i + s) (if 0 < i then acc + dist (pts.getD (i - s) gpsDefault) (pts.getD i gpsDefault) else acc)
      have hm : 1 ≤ n - i := by omega
      by_cases hcase : n - i ≤ s
      · have hz : n - (i + s) = 0 := by omega
        have ha : n - (i + s) + s - 1 = s - 1 := by omega
        rw [ha] at hrec
        have hzero : (s - 1) / s = 0 := Nat.div_eq_of_lt (by omega)
        rw [hzero] at hrec
        have hone : 1 ≤ (n - i + s - 1) / s := by
          rw [Nat.one_le_div_iff hs]
          omega
        omega
      · have ha : n - (i + s) + s - 1 = n - i - 1 := by omega
        have hb : n - i + s - 1 = (n - i - 1) + s := by omega
        rw [ha] at hrec
        rw [hb, Nat.add_div_right _ hs]
        omega
    · simp [routeDetailsLoop, if_neg hin]

theorem decimatedCap (n s : Nat) (hs1 : 0 < s) (hcap : s = max 1 (n / 1000)) :
    (n + s - 1) / s ≤ 1999 := by
  by_cases hsmall : n ≤ 1999
  · cases Nat.eq_zero_or_pos n with
    | inl h0 =>
      subst h0
      have : (0 + s - 1) / s = 0 := Nat.div_eq_of_lt (by omega)
      omega
    | inr hpos =>
      have hle : n ≤ n * s := Nat.le_mul_of_pos_right n hs1
      have : (n + s - 1) / s < n + 1 := by
        rw [Nat.div_lt_iff_lt_mul hs1]
        have : (n + 1) * s = n * s + s := by ring
        omega
      omega
  · have hn : 2000 ≤ n := by omega
    have hs2 : 2 ≤ n / 1000 := by
      have := Nat.div_le_div_right (c := 1000) hn
      simpa using this
    have hseq : s = n / 1000 := by omega
    obtain ⟨hq, hr⟩ : n = 1000 * (n / 1000) + n % 1000 ∧ n % 1000 < 1000 :=
      ⟨(Nat.div_add_mod n 1000).symm, Nat.mod_lt n (by omega)⟩
    have hle : n + s - 1 ≤ 998 + 1001 * s := by omega
    have h1 : (n + s - 1) / s ≤ (998 + 1001 * s) / s := Nat.div_le_div_right hle
    rw [Nat.add_mul_div_right 998 1001 hs1] at h1
    have h2 : 998 / s ≤ 998 / 2 := Nat.div_le_div_left (by omega) (by omega)
    have h3 : (998 : Nat) / 2 = 499 := by norm_num
    omega

/-! ## Helper lemmas: the Route collection -/

theorem filter_nil_of_find?_none {l : List StoredRoute} {p : StoredRoute → Bool}
    (h : l.find? p = none) : l.filter p = [] := by
  rw [List.filter_eq_nil_iff]
  intro a ha
  have := List.find?_eq_none.mp h a ha
  simpa using this

theorem processSingle_skip_shortCircuits (cfg : BulkCfg) (e : RouteEntry) (rn : Nat)
    (db : RouteDB) (ex : StoredRoute)
    (hskip : cfg.skipExistingRoutes = true)
    (hfind : findExistingRoute db cfg.userId e.fromcode e.tocode = some ex) :
    (processSingleRouteEnhancedWithVisibility cfg e rn db).1.status = "skipped" ∧
      (processSingleRouteEnhancedWithVisibility cfg e rn db).1.routeId = some ex.id ∧
      (processSingleRouteEnhancedWithVisibility cfg e rn db).2 = db := by
  simp only [processSingleRouteEnhancedWithVisibility, hskip, hfind]
  by_cases hvis : cfg.enableAutomaticVisibilityAnalysis <;> simp [hvis]

theorem processSingle_eq_fromCheck (cfg : BulkCfg) (e : RouteEntry) (rn : Nat)
    (db : RouteDB) :
    processSingleRouteEnhancedWithVisibility cfg e rn db =
      processSingleRouteFromCheck cfg e rn (routeExistenceCheck cfg e db) db := by
  cases hskip : cfg.skipExistingRoutes with
  | true =>
    cases hfind : findExistingRoute db cfg.userId e.fromcode e.tocode with
    | some ex =>
      simp [processSingleRouteEnhancedWithVisibility, processSingleRouteFromCheck,
        routeExistenceCheck, hskip, hfind]
    | none =>
      simp [processSingleRouteEnhancedWithVisibility, processSingleRouteFromCheck,
        routeExistenceCheck, hskip, hfind]
  | false =>
    cases hfind : findExistingRoute db cfg.userId e.fromcode e.tocode with
    | some ex =>
      simp [processSingleRouteEnhancedWithVisibility, processSingleRouteFromCheck,
        routeExistenceCheck, hskip, hfind]
    | none =>
      simp [processSingleRouteEnhancedWithVisibility, processSingleRouteFromCheck,
        routeExistenceCheck, hskip, hfind]

theorem processFromCheck_skip (cfg : BulkCfg) (e : RouteEntry) (rn : Nat)
    (db : RouteDB) (ex : StoredRoute) :
    (processSingleRouteFromCheck cfg e rn (some ex) db).1.status = "skipped" ∧
      (processSingleRouteFromCheck cfg e rn (some ex) db).1.routeId = some ex.id ∧
      (processSingleRouteFromCheck cfg e rn (some ex) db).2 = db := by
  simp only [processSingleRouteFromCheck]
  by_cases hvis : cfg.enableAutomaticVisibilityAnalysis <;> simp [hvis]

theorem processSingle_preserves_noDup (cfg : BulkCfg) (e : RouteEntry) (rn : Nat)
    (db : RouteDB)
    (hskip : cfg.skipExistingRoutes = true) (hnd : NoDupRouteKeys db) :
    NoDupRouteKeys (processSingleRouteEnhancedWithVisibility cfg e rn db).2 := by
  cases hfind : findExistingRoute db cfg.userId e.fromcode e.tocode with
  | some ex =>
    have := processSingle_skip_shortCircuits cfg e rn db ex hskip hfind
    rw [this.2.2]
    exact hnd
  | none =>
    simp only [processSingleRouteEnhancedWithVisibility, hskip, hfind]
    cases hgps : cfg.gps e with
    | none => exact hnd
    | some pts =>
      by_cases hlen : pts.length < 2
      · simp only [if_pos hlen]
        exact hnd
      · simp only [if_neg hlen]
        intro uid fc tc
        simp only [routeKeyCount, createRouteOptimized, List.filter_append,
          List.length_append]
        by_cases hm : matchesRouteKey uid fc tc
            { id := db.nextId, userId := cfg.userId, fromCode := e.fromcode
              toCode := e.tocode, fromName := e.fromname, toName := e.toname
              status := "active"
              totalDistance := (calculateRouteDetailsOptimized cfg.dist pts).totalDistance
              estimatedDuration := (calculateRouteDetailsOptimized cfg.dist pts).estimatedDuration
              routePoints := (calculateRouteDetailsOptimized cfg.dist pts).routePoints
              terrain := cfg.terrainType }
        · have hkey : cfg.userId = uid ∧ e.fromcode = fc ∧ e.tocode = tc := by
            simp only [matchesRouteKey, Bool.and_eq_true, beq_iff_eq] at hm
            exact ⟨hm.1.1.1, hm.1.1.2, hm.1.2⟩
          obtain ⟨h1, h2, h3⟩ := hkey
          subst h1; subst h2; subst h3
          have hfilter : db.routes.filter (matchesRouteKey cfg.userId e.fromcode e.tocode) = [] :=
            filter_nil_of_find?_none hfind
          simp [hfilter, hm]
        · have hcount := hnd uid fc tc
          simp only [routeKeyCount] at hcount
          simp [List.filter_cons, hm, hcount]

theorem runItemsSeq_preserves_noDup (cfg : BulkCfg) (hskip : cfg.skipExistingRoutes = true) :
    ∀ (entries : List RouteEntry) (db : RouteDB), NoDupRouteKeys db →
      NoDupRouteKeys (runItemsSeq cfg entries db).2 := by
  intro entries
  induction entries with
  | nil => intro db hnd; exact hnd
  | cons e rest ih =>
    intro db hnd
    simp only [runItemsSeq]
    exact ih _ (processSingle_preserves_noDup cfg e 0 db hskip hnd)

theorem processSingle_insufficient (cfg : BulkCfg) (e : RouteEntry) (rn : Nat)
    (db : RouteDB) (pts : List GPSPoint)
    (hnoskip : cfg.skipExistingRoutes = false ∨
      findExistingRoute db cfg.userId e.fromcode e.tocode = none)
    (hgps : cfg.gps e = some pts) (hlen : pts.length < 2) :
    processSingleRouteEnhancedWithVisibility cfg e rn db =
      ({ initialRouteResult e rn with
          error := some ("Insufficient GPS points: " ++ toString pts.length ++
            " (minimum 2 required)") }, db) := by
  rcases hnoskip with hskip | hfind
  · cases hfind : findExistingRoute db cfg.userId e.fromcode e.tocode with
    | none => simp [processSingleRouteEnhancedWithVisibility, hskip, hfind, hgps, hlen]
    | some ex => simp [processSingleRouteEnhancedWithVisibility, hskip, hfind, hgps, hlen]
  · cases hskip : cfg.skipExistingRoutes with
    | false => simp [processSingleRouteEnhancedWithVisibility, hskip, hfind, hgps, hlen]
    | true => simp [processSingleRouteEnhancedWithVisibility, hskip, hfind, hgps, hlen]

theorem routeDetailsLoop_length_step_one (dist : GPSPoint → GPSPoint → ℚ)
    (pts : List GPSPoint) (n : Nat) :
    ∀ (fuel i : Nat) (acc : ℚ), n ≤ i + fuel →
      (routeDetailsLoop dist pts 1 n fuel i acc).1.length = n - i := by
  intro fuel
  induction fuel with
  | zero =>
    intro i acc h
    simp only [routeDetailsLoop, List.length_nil]
    omega
  | succ f ih =>
    intro i acc h
    by_cases hin : i < n
    · simp only [routeDetailsLoop, if_pos hin, List.length_cons]
      rw [ih (i + 1) _ (by omega)]
      omega
    · simp only [routeDetailsLoop, if_neg hin, List.length_nil]
      omega

theorem parse_add_errors_eq_rows (rows : List CsvRow) :
    (parseBulkRoutesCSV rows).length + bulkRowErrorCount rows = rows.length := by
  induction rows with
  | nil => rfl
  | cons r rest ih =>
    simp only [parseBulkRoutesCSV, bulkRowErrorCount] at ih ⊢
    cases hr : processBulkRow r <;>
      simp [List.filterMap_cons, List.filter_cons, hr] <;> omega

/-! ## Claim theorems -/

/-- C1: for every manifest, once the batch loop finishes, the three result
buckets partition the settled items exactly: `successful`, `failed` and
`skipped` are the three exclusive-exhaustive filters of the settled result
list (every batch result lands in exactly one bucket), and their sizes sum
to the number of parsed entries — whatever the per-item outcomes and any
cancellation are. -/
theorem C1_buckets_partition_items (entries : List RouteEntry)
    (outcome : RouteEntry → RouteResult) (k : Nat) (cancelAt : Option Nat)
    (hk : 0 < k) :
    (runJob entries outcome k cancelAt).buckets.successful =
        ((chunkList entries k).flatten.map outcome).filter
          (fun r => r.status == "successful") ∧
      (runJob entries outcome k cancelAt).buckets.skipped =
        ((chunkList entries k).flatten.map outcome).filter
          (fun r => !(r.status == "successful") && r.status == "skipped") ∧
      (runJob entries outcome k cancelAt).buckets.failed =
        ((chunkList entries k).flatten.map outcome).filter
          (fun r => !(r.status == "successful") && !(r.status == "skipped")) ∧
      (runJob entries outcome k cancelAt).buckets.successful.length +
          (runJob entries outcome k cancelAt).buckets.failed.length +
          (runJob entries outcome k cancelAt).buckets.skipped.length =
        entries.length := by
  have hb : (runJob entries outcome k cancelAt).buckets =
      ((chunkList entries k).flatten.map outcome).foldl categorize emptyBuckets := by
    simp only [runJob]
    exact runLoop_buckets outcome cancelAt (chunkList entries k) 0 emptyBuckets _
  have hsucc := foldl_categorize_successful ((chunkList entries k).flatten.map outcome) emptyBuckets
  have hskip := foldl_categorize_skipped ((chunkList entries k).flatten.map outcome) emptyBuckets
  have hfail := foldl_categorize_failed ((chunkList entries k).flatten.map outcome) emptyBuckets
  simp only [emptyBuckets, List.nil_append] at hsucc hskip hfail
  have hlen : ((chunkList entries k).flatten.map outcome).length = entries.length := by
    rw [List.length_map, chunkList_flatten entries k hk]
  rw [hb]
  simp only [emptyBuckets]
  refine ⟨hsucc, hskip, hfail, ?_⟩
  rw [hsucc, hskip, hfail, ← hlen]
  exact filter_three_way_length _

/-- C1 witness: a three-entry manifest processed in batches of two has
`successful + failed + skipped = 3`. -/
theorem C1_buckets_partition_items_witness :
    0 < 2 ∧
      (runJob [sampleEntry "A" "B", sampleEntry "B" "C", sampleEntry "C" "D"]
            (fun e => timeoutRouteResult e 0) 2 none).buckets.successful.length +
          (runJob [sampleEntry "A" "B", sampleEntry "B" "C", sampleEntry "C" "D"]
            (fun e => timeoutRouteResult e 0) 2 none).buckets.failed.length +
          (runJob [sampleEntry "A" "B", sampleEntry "B" "C", sampleEntry "C" "D"]
            (fun e => timeoutRouteResult e 0) 2 none).buckets.skipped.length = 3 :=
  ⟨by decide,
    (C1_buckets_partition_items [sampleEntry "A" "B", sampleEntry "B" "C", sampleEntry "C" "D"]
      (fun e => timeoutRouteResult e 0) 2 none (by decide)).2.2.2⟩

/-- C2 counterexample: re-running a manifest with `skipExistingRoutes` set
CAN create duplicate primary entities for the same owner+fromCode+toCode
pair.  A manifest listing the same pair twice, whose GPS file was missing on
the first run (so no entity exists for the key), lands both rows in one
batch on the re-run; their pipelines run concurrently, and under the
reachable schedule where both `Route.findOne` checks resolve before either
`route.save()` commits (the check at lines 1014-1019 is separated from the
save at line 1593 by the awaits of `loadGPSDataOptimized`), both checks see
no route and both create: starting from a duplicate-free (empty) collection,
the batch ends with two non-deleted routes for (owner 7, A, B). -/
theorem C2_concurrent_duplicates_counterexample :
    sampleCfgTwoPoints.skipExistingRoutes = true ∧
      NoDupRouteKeys { routes := [], nextId := 0 } ∧
      routeKeyCount
          (processPairChecksBeforeSaves sampleCfgTwoPoints (sampleEntry "A" "B")
            (sampleEntry "A" "B") 1 2 { routes := [], nextId := 0 }).2
          sampleCfgTwoPoints.userId "A" "B" = 2 ∧
      ¬ NoDupRouteKeys
          (processPairChecksBeforeSaves sampleCfgTwoPoints (sampleEntry "A" "B")
            (sampleEntry "A" "B") 1 2 { routes := [], nextId := 0 }).2 := by
  refine ⟨rfl, ?_, by decide, ?_⟩
  · intro uid fc tc
    simp [routeKeyCount]
  · intro hnd
    have h := hnd sampleCfgTwoPoints.userId "A" "B"
    have hc : routeKeyCount
        (processPairChecksBeforeSaves sampleCfgTwoPoints (sampleEntry "A" "B")
          (sampleEntry "A" "B") 1 2 { routes := [], nextId := 0 }).2
        sampleCfgTwoPoints.userId "A" "B" = 2 := by decide
    omega

/-- C2 amended: the per-item short-circuit holds — an item whose existence
check finds a non-deleted route for (owner, fromCode, toCode) returns a
`skipped` result referencing it and leaves the Route collection unchanged.
The no-duplicates consequence holds only where item effects do not overlap:
(a) when items run serialized (batch size 1, `runItemsSeq`), any run
preserves key-uniqueness of the collection; and (b) even under the in-batch
concurrent schedule, a pair of items whose keys both already have an entity
at check time (the re-run after a fully successful first run) both skip and
leave the collection unchanged.  It fails in general: two same-key items
without a pre-existing entity can both pass their checks before either
saves, as the counterexample shows. -/
theorem C2_skip_shortCircuit_scoped_idempotence (cfg : BulkCfg) (e e1 e2 : RouteEntry)
    (rn rn1 rn2 : Nat) (db : RouteDB) (entries : List RouteEntry)
    (hskip : cfg.skipExistingRoutes = true) :
    (∀ ex : StoredRoute, findExistingRoute db cfg.userId e.fromcode e.tocode = some ex →
      (processSingleRouteEnhancedWithVisibility cfg e rn db).1.status = "skipped" ∧
        (processSingleRouteEnhancedWithVisibility cfg e rn db).1.routeId = some ex.id ∧
        (processSingleRouteEnhancedWithVisibility cfg e rn db).2 = db) ∧
      (NoDupRouteKeys db → NoDupRouteKeys (runItemsSeq cfg entries db).2) ∧
      (∀ ex1 ex2 : StoredRoute,
        findExistingRoute db cfg.userId e1.fromcode e1.tocode = some ex1 →
        findExistingRoute db cfg.userId e2.fromcode e2.tocode = some ex2 →
        (processPairChecksBeforeSaves cfg e1 e2 rn1 rn2 db).2 = db ∧
          (processPairChecksBeforeSaves cfg e1 e2 rn1 rn2 db).1.1.status = "skipped" ∧
          (processPairChecksBeforeSaves cfg e1 e2 rn1 rn2 db).1.2.status = "skipped") := by
  refine ⟨?_, ?_, ?_⟩
  · intro ex hfind
    exact processSingle_skip_shortCircuits cfg e rn db ex hskip hfind
  · intro hnd
    exact runItemsSeq_preserves_noDup cfg hskip entries db hnd
  · intro ex1 ex2 hf1 hf2
    have hc1 : routeExistenceCheck cfg e1 db = some ex1 := by
      simp [routeExistenceCheck, hskip, hf1]
    have hc2 : routeExistenceCheck cfg e2 db = some ex2 := by
      simp [routeExistenceCheck, hskip, hf2]
    have h1 := processFromCheck_skip cfg e1 rn1 db ex1
    have h2 := processFromCheck_skip cfg e2 rn2 db ex2
    simp only [processPairChecksBeforeSaves, hc1, hc2]
    rw [h1.2.2]
    exact ⟨h2.2.2, h1.1, h2.1⟩

/-- C2 witness: a database holding the route (owner 7, HPA, HPB) makes the
same manifest row skip, keeps keys unique under a serialized rerun, and a
concurrent same-key pair with the entity present leaves the collection
unchanged. -/
theorem C2_skip_shortCircuit_scoped_idempotence_witness :
    (processSingleRouteEnhancedWithVisibility sampleCfg (sampleEntry "HPA" "HPB") 1
          { routes := [sampleStoredRoute], nextId := 4 }).1.status = "skipped" ∧
      NoDupRouteKeys (runItemsSeq sampleCfg [sampleEntry "HPA" "HPB"]
          { routes := [sampleStoredRoute], nextId := 4 }).2 ∧
      (processPairChecksBeforeSaves sampleCfg (sampleEntry "HPA" "HPB")
          (sampleEntry "HPA" "HPB") 1 2 { routes := [sampleStoredRoute], nextId := 4 }).2 =
        { routes := [sampleStoredRoute], nextId := 4 } := by
  have h := C2_skip_shortCircuit_scoped_idempotence sampleCfg (sampleEntry "HPA" "HPB")
    (sampleEntry "HPA" "HPB") (sampleEntry "HPA" "HPB") 1 1 2
    { routes := [sampleStoredRoute], nextId := 4 } [sampleEntry "HPA" "HPB"] rfl
  have hfind : findExistingRoute { routes := [sampleStoredRoute], nextId := 4 }
      sampleCfg.userId (sampleEntry "HPA" "HPB").fromcode (sampleEntry "HPA" "HPB").tocode =
      some sampleStoredRoute := by decide
  have hnd : NoDupRouteKeys { routes := [sampleStoredRoute], nextId := 4 } := by
    intro uid fc tc
    simp only [routeKeyCount, List.filter_cons, List.filter_nil]
    split <;> simp
  exact ⟨(h.1 sampleStoredRoute hfind).1, h.2.1 hnd,
    (h.2.2 sampleStoredRoute sampleStoredRoute hfind hfind).1⟩

/-- C3 counterexample: the enrichment tasks do not run under per-task
timeouts.  With mode `comprehensive` and every task enabled, one slow task
(200 s > 180 s) makes the whole collection return the all-zero counts, wiping
the reported records of its fast siblings (e.g. network coverage's 7),
whereas with every task fast the same database counts are returned — so a
timeout is neither confined to the offending task nor are sibling results
unaffected, contradicting the claim. -/
theorem C3_per_task_timeout_counterexample :
    collectEnhancedDataForRoute "comprehensive" allEnhOptions
        (fun t => if t == EnrichTask.sharpTurns then 200000 else 10)
        { zeroCounts with networkCoverage := 7 } = zeroCounts ∧
      collectEnhancedDataForRoute "comprehensive" allEnhOptions (fun _ => 10)
        { zeroCounts with networkCoverage := 7 } =
        { zeroCounts with networkCoverage := 7 } ∧
      ({ zeroCounts with networkCoverage := 7 } : CollectionCounts) ≠ zeroCounts ∧
      EnrichTask.networkCoverage ∈ enabledEnrichTasks "comprehensive" allEnhOptions := by
  refine ⟨by decide, by decide, by decide, by decide⟩

/-- C3 amended: there is no per-task timeout; all enabled enrichment tasks
share the single 180 s timeout over their `Promise.all`.  If every enabled
task settles within 180 s the authoritative database counts are returned
(individually caught task failures never abort siblings — the counts are
re-read from the database); if any enabled task reaches 180 s, the whole
collection returns zero counts for every task. -/
theorem C3_shared_timeout (mode : String) (o : EnhOptions)
    (durations : EnrichTask → Nat) (dbCounts : CollectionCounts) :
    ((∀ t ∈ enabledEnrichTasks mode o, durations t < enhancedCollectionTimeoutMs) →
        collectEnhancedDataForRoute mode o durations dbCounts = dbCounts) ∧
      ((∃ t ∈ enabledEnrichTasks mode o, enhancedCollectionTimeoutMs ≤ durations t) →
        collectEnhancedDataForRoute mode o durations dbCounts = zeroCounts) := by
  constructor
  · intro h
    have hall : (enabledEnrichTasks mode o).all
        (fun t => durations t < enhancedCollectionTimeoutMs) = true := by
      rw [List.all_eq_true]
      intro t ht
      exact decide_eq_true (h t ht)
    simp [collectEnhancedDataForRoute, hall]
  · intro h
    obtain ⟨t, ht, hle⟩ := h
    have hall : (enabledEnrichTasks mode o).all
        (fun t => durations t < enhancedCollectionTimeoutMs) = false := by
      rw [List.all_eq_false]
      exact ⟨t, ht, by simpa using hle⟩
    simp [collectEnhancedDataForRoute, hall]

/-- C3 witness: both branches of the amended statement at concrete inputs:
all-fast tasks return the database counts, one slow task zeroes them. -/
theorem C3_shared_timeout_witness :
    collectEnhancedDataForRoute "comprehensive" allEnhOptions (fun _ => 50)
        { zeroCounts with sharpTurns := 5 } = { zeroCounts with sharpTurns := 5 } ∧
      collectEnhancedDataForRoute "comprehensive" allEnhOptions
        (fun t => if t == EnrichTask.basicData then 180000 else 50)
        { zeroCounts with sharpTurns := 5 } = zeroCounts :=
  ⟨(C3_shared_timeout "comprehensive" allEnhOptions (fun _ => 50)
      { zeroCounts with sharpTurns := 5 }).1 (by decide),
    (C3_shared_timeout "comprehensive" allEnhOptions
      (fun t => if t == EnrichTask.basicData then 180000 else 50)
      { zeroCounts with sharpTurns := 5 }).2 ⟨EnrichTask.basicData, by decide, by decide⟩⟩

/-- C4: batches run strictly sequentially.  In every trace of the batch loop
(any manifest, any batch size, any within-batch settle order), every settle
event of an earlier batch precedes every dispatch event of a later batch;
and when a batch's settle order is a permutation of its items, each of its
items' settle events does occur in the trace.  Within a batch the settle
order is the arbitrary `perms` parameter — it is unconstrained. -/
theorem C4_batches_strictly_sequential (entries : List RouteEntry) (k : Nat)
    (perms : List (List Nat)) (m n x y i j : Nat) :
    (m < n →
        (scheduleTrace (batchSizes entries k) perms).get? i =
          some (SchedulerEvent.settle m y) →
        (scheduleTrace (batchSizes entries k) perms).get? j =
          some (SchedulerEvent.dispatch n x) →
        i < j) ∧
      (∀ (sz : Nat) (perm : List Nat),
        ((batchSizes entries k).zip perms).get? m = some (sz, perm) →
        perm.Perm (List.range sz) → y < sz →
        SchedulerEvent.settle m y ∈ scheduleTrace (batchSizes entries k) perms) := by
  constructor
  · intro hmn hi hj
    simp only [scheduleTrace] at hi hj
    obtain ⟨hib, hig⟩ := List.get?_eq_some.mp hi
    obtain ⟨hjb, hjg⟩ := List.get?_eq_some.mp hj
    have hpw := scheduleTraceFrom_pairwise ((batchSizes entries k).zip perms) 0
    rcases Nat.lt_trichotomy i j with hlt | heq | hgt
    · exact hlt
    · exfalso
      subst heq
      rw [hig] at hjg
      simp at hjg
    · exfalso
      have hrel := List.pairwise_iff_get.mp hpw ⟨j, hjb⟩ ⟨i, hib⟩ hgt
      rw [hig, hjg] at hrel
      simp only [evBatchIdx] at hrel
      omega
  · intro sz perm hget hperm hy
    have hmem : y ∈ perm := hperm.mem_iff.mpr (List.mem_range.mpr hy)
    have := settle_mem_scheduleTraceFrom ((batchSizes entries k).zip perms) 0 m sz perm y
      hget hmem
    simpa [scheduleTrace] using this

/-- C4 witness: the spec's example — five items with batch size 2 give batch
sizes `[2, 2, 1]`; with concrete settle orders, the settle of item 1 of
batch 0 (trace position 3) precedes the dispatch of item 0 of batch 1
(trace position 4), and the settle of the last batch's single item occurs. -/
theorem C4_batches_strictly_sequential_witness :
    batchSizes [sampleEntry "A" "B", sampleEntry "B" "C", sampleEntry "C" "D",
        sampleEntry "D" "E", sampleEntry "E" "F"] 2 = [2, 2, 1] ∧
      (3 : Nat) < 4 ∧
      SchedulerEvent.settle 2 0 ∈ scheduleTrace
        (batchSizes [sampleEntry "A" "B", sampleEntry "B" "C", sampleEntry "C" "D",
          sampleEntry "D" "E", sampleEntry "E" "F"] 2) [[0, 1], [1, 0], [0]] :=
  ⟨by decide,
    (C4_batches_strictly_sequential [sampleEntry "A" "B", sampleEntry "B" "C",
        sampleEntry "C" "D", sampleEntry "D" "E", sampleEntry "E" "F"] 2
        [[0, 1], [1, 0], [0]] 0 1 0 1 3 4).1 (by decide) (by decide) (by decide),
    (C4_batches_strictly_sequential [sampleEntry "A" "B", sampleEntry "B" "C",
        sampleEntry "C" "D", sampleEntry "D" "E", sampleEntry "E" "F"] 2
        [[0, 1], [1, 0], [0]] 2 0 0 0 0 0).2 1 [0] (by decide) (by decide) (by decide)⟩

/-- C5 counterexample: cancellation does not stop the batch loop.  A
two-entry job with batch size 1, cancelled between the two batches (the
`/cancel` merge lands before batch index 1), still dispatches both batches
and finishes with terminal status `completed`, not `cancelled` — the loop
never reads the cancelled status and the final update overwrites it. -/
theorem C5_cancel_counterexample :
    (runJob [sampleEntry "A" "B", sampleEntry "B" "C"]
        (fun e => timeoutRouteResult e 0) 1 (some 1)).dispatched = 2 ∧
      (runJob [sampleEntry "A" "B", sampleEntry "B" "C"]
        (fun e => timeoutRouteResult e 0) 1 (some 1)).finalState.status = "completed" ∧
      ("completed" : String) ≠ "cancelled" := by
  refine ⟨by decide, by decide, by decide⟩

/-- C5 amended: the `/cancel` handler does set the state's status to
`cancelled`, but the batch loop never consults it: whenever the cancel merge
lands between batches, every batch is still dispatched, the buckets are
exactly those of the uncancelled run (no item result lost or duplicated),
and the terminal status is overwritten to `completed`. -/
theorem C5_cancel_ignored_by_loop (entries : List RouteEntry)
    (outcome : RouteEntry → RouteResult) (k i : Nat) (st : ProcState) :
    (runJob entries outcome k (some i)).buckets =
        (runJob entries outcome k none).buckets ∧
      (runJob entries outcome k (some i)).dispatched = (chunkList entries k).length ∧
      (runJob entries outcome k (some i)).finalState.status = "completed" ∧
      (cancelUpdate st).status = "cancelled" := by
  refine ⟨?_, ?_, ?_, rfl⟩
  · simp only [runJob]
    rw [runLoop_buckets outcome (some i) (chunkList entries k) 0 emptyBuckets _,
      runLoop_buckets outcome none (chunkList entries k) 0 emptyBuckets _]
  · simp only [runJob]
    exact runLoop_dispatched outcome (some i) (chunkList entries k) 0 emptyBuckets _
  · simp [runJob]

/-- C6 counterexample: the decimated point list is not capped at 1000.  For
1001 input points the step is `max(1, floor(1001/1000)) = 1`, so all 1001
points are stored — more than the claimed cap. -/
theorem C6_cap_counterexample :
    1000 < (calculateRouteDetailsOptimized (fun _ _ => 0)
        (List.replicate 1001 gpsDefault)).routePoints.length := by
  have hlen : (List.replicate 1001 gpsDefault).length = 1001 := List.length_replicate 1001 _
  have hstep : max 1 (1001 / maxRoutePoints) = 1 := by rfl
  have := routeDetailsLoop_length_step_one (fun _ _ => 0)
    (List.replicate 1001 gpsDefault) 1001 1001 0 0 (by omega)
  simp only [calculateRouteDetailsOptimized, hlen, hstep]
  omega

/-- C6 amended: the decimated point list holds at most 1999 points (the 1000
cap of the claim is exceeded for inputs of 1001..1999 points, and in general
`ceil(n / max(1, floor(n/1000)))` can reach 1999); the raw cumulative
distance is exactly the sum of the abstract great-circle distance over
adjacent pairs of that decimated subsequence (stored rounded to 2 decimals),
and the duration estimate is `Math.round(rawDistance * 1.5)` — the fixed
40 km/h heuristic. -/
theorem C6_decimation_distance_duration (dist : GPSPoint → GPSPoint → ℚ)
    (gpsPoints : List GPSPoint) :
    (calculateRouteDetailsOptimized dist gpsPoints).routePoints.length ≤ 1999 ∧
      (calculateRouteDetailsOptimized dist gpsPoints).totalDistance =
        roundTo2 (sumAdjacentDist dist
          (calculateRouteDetailsOptimized dist gpsPoints).routePoints) ∧
      (calculateRouteDetailsOptimized dist gpsPoints).estimatedDuration =
        jsMathRound (sumAdjacentDist dist
          (calculateRouteDetailsOptimized dist gpsPoints).routePoints * (3 / 2)) := by
  have hs : 0 < max 1 (gpsPoints.length / maxRoutePoints) := le_max_left 1 _
  have hdist := routeDetailsLoop_dist_total dist gpsPoints
    (max 1 (gpsPoints.length / maxRoutePoints)) hs gpsPoints.length
  refine ⟨?_, ?_, ?_⟩
  · have hb := routeDetailsLoop_length_le dist gpsPoints
      (max 1 (gpsPoints.length / maxRoutePoints)) gpsPoints.length hs
      gpsPoints.length 0 0
    have hc := decimatedCap gpsPoints.length (max 1 (gpsPoints.length / maxRoutePoints))
      hs (by simp [maxRoutePoints])
    simp only [calculateRouteDetailsOptimized]
    simp only [Nat.sub_zero] at hb
    omega
  · simp only [calculateRouteDetailsOptimized]
    rw [hdist]
  · simp only [calculateRouteDetailsOptimized]
    rw [hdist]

/-- C7 counterexample: a row whose `fromname` is whitespace — hence empty
after trim, which the claim says must be recorded as a row error and omitted
— passes validation: it is returned in the item list (with an empty name)
and the internal error array stays empty, because the source checks the name
fields only before trimming. -/
theorem C7_whitespace_name_counterexample :
    processBulkRow
        { fromcode := some "HPC1", fromname := some " ", tocode := some "HPC2"
          toname := some "Depot" } =
        some { fromcode := "HPC1", fromname := "", tocode := "HPC2", toname := "Depot" } ∧
      parseBulkRoutesCSV
        [{ fromcode := some "HPC1", fromname := some " ", tocode := some "HPC2"
           toname := some "Depot" }] =
        [{ fromcode := "HPC1", fromname := "", tocode := "HPC2", toname := "Depot" }] ∧
      bulkRowErrorCount
        [{ fromcode := some "HPC1", fromname := some " ", tocode := some "HPC2"
           toname := some "Depot" }] = 0 := by
  refine ⟨by decide, by decide, by decide⟩

/-- C7 amended: the parser never throws for malformed rows; the returned
items and the internally recorded row errors partition the rows exactly; and
a row is recorded as a row error precisely when a required field is absent
or empty before trimming, or its `fromcode`/`tocode` trim to empty — the
name fields are not re-checked after trimming.  The error list itself is
only console-logged: the parse resolves with the item list alone, so the
caller's summary never sees the row errors. -/
theorem C7_row_validation (rows : List CsvRow) :
    (parseBulkRoutesCSV rows).length + bulkRowErrorCount rows = rows.length ∧
      ∀ r ∈ rows, (processBulkRow r = none ↔
        (jsFalsyStr r.fromcode || jsFalsyStr r.fromname || jsFalsyStr r.tocode ||
            jsFalsyStr r.toname) = true ∨
          (jsTrim (r.fromcode.getD "") == "" || jsTrim (r.tocode.getD "") == "") = true) := by
  refine ⟨parse_add_errors_eq_rows rows, ?_⟩
  intro r _
  simp only [processBulkRow]
  by_cases h1 : (jsFalsyStr r.fromcode || jsFalsyStr r.fromname || jsFalsyStr r.tocode ||
      jsFalsyStr r.toname) = true
  · simp [h1]
  · by_cases h2 : (jsTrim (r.fromcode.getD "") == "" || jsTrim (r.tocode.getD "") == "") = true
    · simp [h1, h2]
    · simp [h1, h2]

/-- C7 witness: a two-row manifest — one valid row, one missing `toname` —
yields one item plus one internally recorded row error, and the malformed
row is characterised as rejected. -/
theorem C7_row_validation_witness :
    (parseBulkRoutesCSV
          [{ fromcode := some "A", fromname := some "An", tocode := some "B"
             toname := some "Bn" },
           { fromcode := some "A", fromname := some "An", tocode := some "B"
             toname := none }]).length +
        bulkRowErrorCount
          [{ fromcode := some "A", fromname := some "An", tocode := some "B"
             toname := some "Bn" },
           { fromcode := some "A", fromname := some "An", tocode := some "B"
             toname := none }] = 2 ∧
      (processBulkRow
          { fromcode := some "A", fromname := some "An", tocode := some "B"
            toname := none } = none ↔
        (jsFalsyStr (some "A") || jsFalsyStr (some "An") || jsFalsyStr (some "B") ||
            jsFalsyStr none) = true ∨
          (jsTrim "A" == "" || jsTrim "B" == "") = true) :=
  ⟨(C7_row_validation
      [{ fromcode := some "A", fromname := some "An", tocode := some "B"
         toname := some "Bn" },
       { fromcode := some "A", fromname := some "An", tocode := some "B"
         toname := none }]).1,
    (C7_row_validation
      [{ fromcode := some "A", fromname := some "An", tocode := some "B"
         toname := some "Bn" },
       { fromcode := some "A", fromname := some "An", tocode := some "B"
         toname := none }]).2
      { fromcode := some "A", fromname := some "An", tocode := some "B"
        toname := none } (by decide)⟩

/-- C8: an item whose input file resolves to fewer than 2 valid points fails
with the insufficient-points error: its result is `failed` carrying the
`Insufficient GPS points` message, no Route document is created (the
collection is returned unchanged), and the failure is confined to that item
— the remaining items of the run produce exactly the results they would
produce without it. -/
theorem C8_insufficient_points_fails_item_only (cfg : BulkCfg) (e : RouteEntry)
    (rn : Nat) (db : RouteDB) (pts : List GPSPoint) (rest : List RouteEntry)
    (hnoskip : cfg.skipExistingRoutes = false ∨
      findExistingRoute db cfg.userId e.fromcode e.tocode = none)
    (hgps : cfg.gps e = some pts) (hlen : pts.length < 2) :
    (processSingleRouteEnhancedWithVisibility cfg e rn db).1.status = "failed" ∧
      (processSingleRouteEnhancedWithVisibility cfg e rn db).1.error =
        some ("Insufficient GPS points: " ++ toString pts.length ++
          " (minimum 2 required)") ∧
      (processSingleRouteEnhancedWithVisibility cfg e rn db).1.routeId = none ∧
      (processSingleRouteEnhancedWithVisibility cfg e rn db).2 = db ∧
      runItemsSeq cfg (e :: rest) db =
        ((processSingleRouteEnhancedWithVisibility cfg e 0 db).1 ::
            (runItemsSeq cfg rest db).1,
          (runItemsSeq cfg rest db).2) := by
  have h := processSingle_insufficient cfg e rn db pts hnoskip hgps hlen
  have h0 := processSingle_insufficient cfg e 0 db pts hnoskip hgps hlen
  refine ⟨by rw [h]; simp [initialRouteResult], by rw [h],
    by rw [h]; simp [initialRouteResult], by rw [h], ?_⟩
  simp only [runItemsSeq, h0]

/-- C8 witness: with an empty Route collection and an input resolving to an
empty point list, the item fails with the insufficient-points error and the
run continues as if it were absent. -/
theorem C8_insufficient_points_fails_item_only_witness :
    (processSingleRouteEnhancedWithVisibility sampleCfg (sampleEntry "A" "B") 1
          { routes := [], nextId := 0 }).1.status = "failed" ∧
      (processSingleRouteEnhancedWithVisibility sampleCfg (sampleEntry "A" "B") 1
          { routes := [], nextId := 0 }).2 = { routes := [], nextId := 0 } :=
  have h := C8_insufficient_points_fails_item_only sampleCfg (sampleEntry "A" "B") 1
    { routes := [], nextId := 0 } [] [] (Or.inr (by decide)) rfl (by decide)
  ⟨h.1, h.2.2.2.1⟩

/-- C9 counterexample: a settled item is not always counted before the next
batch is dispatched.  A two-entry job with batch size 1, whose first item
settles via the per-item timeout (a rejected batch promise, whose synthetic
result carries no `enhancedCollectionCounts`), shows `failedRoutes = 0` and
`completedRoutes = 0` in the state visible after batch 1 and before batch 2
— the settled `failed` item was not counted, because the counter update is
gated on the `enhancedCollectionCounts` field. -/
theorem C9_lost_update_counterexample :
    (timeoutRouteResult (sampleEntry "A" "B") 1).status = "failed" ∧
      ((runJob [sampleEntry "A" "B", sampleEntry "B" "C"]
          (fun e => timeoutRouteResult e 1) 1 none).snapshots.getD 0
          procStateDefault).failedRoutes = 0 ∧
      ((runJob [sampleEntry "A" "B", sampleEntry "B" "C"]
          (fun e => timeoutRouteResult e 1) 1 none).snapshots.getD 0
          procStateDefault).completedRoutes = 0 ∧
      (runJob [sampleEntry "A" "B", sampleEntry "B" "C"]
          (fun e => timeoutRouteResult e 1) 1 none).snapshots.length = 2 := by
  refine ⟨by decide, by decide, by decide, by decide⟩

/-- C9 amended: counter updates happen in one synchronous pass after each
batch settles (so no increment is lost to interleaving), but an item is
counted only when its settled result carries the `enhancedCollectionCounts`
field — results returned by the single-route pipeline always do, while the
synthetic results of rejected batch promises (per-item timeout, or a throw
outside the pipeline) do not and are skipped; the state visible before each
next batch therefore counts exactly the gated results settled so far, and
the final completion update recomputes both counters from the bucket
sizes. -/
theorem C9_counters_gated_by_counts_field (entries : List RouteEntry)
    (outcome : RouteEntry → RouteResult) (k : Nat) (cancelAt : Option Nat) (i : Nat)
    (hi : i < (runJob entries outcome k cancelAt).snapshots.length) :
    ((runJob entries outcome k cancelAt).snapshots.getD i procStateDefault).completedRoutes =
        (((chunkList entries k).take (i + 1)).flatten.map outcome).countP countedSuccessful ∧
      ((runJob entries outcome k cancelAt).snapshots.getD i procStateDefault).failedRoutes =
        (((chunkList entries k).take (i + 1)).flatten.map outcome).countP countedFailed ∧
      (runJob entries outcome k cancelAt).finalState.completedRoutes =
        (runJob entries outcome k cancelAt).buckets.successful.length ∧
      (runJob entries outcome k cancelAt).finalState.failedRoutes =
        (runJob entries outcome k cancelAt).buckets.failed.length := by
  have hib : i < (chunkList entries k).length := by
    have hlen := runLoop_snapshots_length outcome cancelAt (chunkList entries k) 0
      emptyBuckets
      { status := "processing", totalRoutes := entries.length,
        completedRoutes := 0, failedRoutes := 0, lastUpdate := 0 }
    have hsnap : (runJob entries outcome k cancelAt).snapshots =
        (runLoop outcome cancelAt (chunkList entries k) 0 emptyBuckets
          { status := "processing", totalRoutes := entries.length,
            completedRoutes := 0, failedRoutes := 0, lastUpdate := 0 }).snapshots := rfl
    rw [hsnap, hlen] at hi
    exact hi
  have hc := runLoop_snapshot_counts outcome cancelAt (chunkList entries k) 0
    emptyBuckets
    { status := "processing", totalRoutes := entries.length,
      completedRoutes := 0, failedRoutes := 0, lastUpdate := 0 } i hib
  exact ⟨by simpa using hc.1, by simpa using hc.2, rfl, rfl⟩

/-- C9 witness: a one-batch job whose single item is a counted failure shows
`failedRoutes = 1` in the post-batch snapshot, and the final counters equal
the bucket sizes. -/
theorem C9_counters_gated_by_counts_field_witness :
    0 < (runJob [sampleEntry "A" "B"]
        (fun e => { timeoutRouteResult e 1 with enhancedCollectionCounts := some zeroCounts })
        1 none).snapshots.length ∧
      ((runJob [sampleEntry "A" "B"]
          (fun e => { timeoutRouteResult e 1 with enhancedCollectionCounts := some zeroCounts })
          1 none).snapshots.getD 0 procStateDefault).failedRoutes =
        List.countP countedFailed
          (((chunkList [sampleEntry "A" "B"] 1).take 1).flatten.map
            (fun e => { timeoutRouteResult e 1 with enhancedCollectionCounts := some zeroCounts })) :=
  ⟨by decide,
    (C9_counters_gated_by_counts_field [sampleEntry "A" "B"]
      (fun e => { timeoutRouteResult e 1 with enhancedCollectionCounts := some zeroCounts })
      1 none 0 (by decide)).2.1⟩

/-- C10: for a status query whose ProcessingState exists but whose
`lastUpdate` is more than five minutes old, the endpoint deletes the state
and answers 200 with status `completed` — whatever the state's actual
status (e.g. a still-`processing` job) — so a stalled job's live progress is
discarded and reported as completed. -/
theorem C10_stale_state_reported_completed (s : ProcState) (now : Nat)
    (hstale : staleLimitMs < now - s.lastUpdate) :
    statusEndpointHandler (some s) now =
      ({ httpCode := 200, success := true, status := "completed" }, none) := by
  simp [statusEndpointHandler, hstale]

/-- C10 witness: a state still marked `processing` with `lastUpdate = 0`
polled at `now = 300001` ms is cleared and reported completed. -/
theorem C10_stale_state_reported_completed_witness :
    staleLimitMs < 300001 - 0 ∧
      statusEndpointHandler
        (some { status := "processing", totalRoutes := 10, completedRoutes := 2
                failedRoutes := 1, lastUpdate := 0 }) 300001 =
        ({ httpCode := 200, success := true, status := "completed" }, none) :=
  ⟨by decide,
    C10_stale_state_reported_completed
      { status := "processing", totalRoutes := 10, completedRoutes := 2
        failedRoutes := 1, lastUpdate := 0 } 300001 (by decide)⟩
